import Mathlib

/-!
Verification of the go2_simulation package (unitree-go2-simulator).

Shallow embedding of `src/go2_simulation/simulators.py` and
`src/go2_simulation/go2_sim.py`. Real numbers of the Python code (numpy
float64) are modelled as rationals; numpy elementwise vector operations on
equal-length arrays are modelled as `List.zipWith` on `List ℚ`.
-/

/-- Elementwise vector subtraction, the numpy `a - b` on equal-length arrays. -/
def vecSub (a b : List ℚ) : List ℚ := List.zipWith (fun x y => x - y) a b

/-- Elementwise vector product, numpy `np.multiply(a, b)`. -/
def vecMul (a b : List ℚ) : List ℚ := List.zipWith (fun x y => x * y) a b

/-- numpy slice assignment `a[k:] = vals` on a 1-d array: the first `k`
entries of `a` are kept, the tail is replaced by `vals` (numpy requires
`vals.length = a.length - k`; callers below satisfy this). -/
def sliceAssignFrom (a : List ℚ) (k : Nat) (vals : List ℚ) : List ℚ :=
  a.take k ++ vals

/-- From `SimpleSimulator.execute_step` (simulators.py line 78):
`tau_cmd = tau_des - np.multiply(q_current[7:]-q_des, kp_des) - np.multiply(v_current[6:]-v_des, kd_des)`.
`q_current`/`v_current` are the full configuration/velocity read from the
simulator at the top of `execute_step` (the pre-step state); the joint part
is `q_current[7:]` (7 base coordinates) and `v_current[6:]` (6 base rates). -/
def SimpleSimulator.tau_cmd
    (tau_des q_des v_des kp_des kd_des q_current v_current : List ℚ) : List ℚ :=
  vecSub (vecSub tau_des (vecMul (vecSub (q_current.drop 7) q_des) kp_des))
    (vecMul (vecSub (v_current.drop 6) v_des) kd_des)

/-- From `SimpleSimulator.execute_step` (simulators.py lines 75-83): reads the
pre-step state, computes `tau_cmd`, then builds
`torque_simu = np.zeros(self.rmodel.nv); torque_simu[6:] = tau_cmd` and hands
it to `self.simulator.execute`.  The function returns the generalized torque
vector passed to the underlying simulator. -/
def SimpleSimulator.execute_step
    (nv : Nat) (q_current v_current tau_des q_des v_des kp_des kd_des : List ℚ) :
    List ℚ :=
  sliceAssignFrom (List.replicate nv 0) 6
    (SimpleSimulator.tau_cmd tau_des q_des v_des kp_des kd_des q_current v_current)

/-- From `BulletSimulator.execute_step` (simulators.py line 166):
`tau_cmd = tau_des - np.multiply(q-q_des, kp_des) - np.multiply(v-v_des, kd_des)`
where `q`, `v` are the joint positions/velocities read via
`pybullet.getJointStates` at the top of `execute_step` (the pre-step state). -/
def BulletSimulator.tau_cmd
    (tau_des q_des v_des kp_des kd_des q v : List ℚ) : List ℚ :=
  vecSub (vecSub tau_des (vecMul (vecSub q q_des) kp_des))
    (vecMul (vecSub v v_des) kd_des)

/-- From `BulletSimulator.execute_step` (simulators.py lines 160-177): reads
the pre-step joint state, computes `tau_cmd`, and passes it as the `forces`
array of a TORQUE_CONTROL `setJointMotorControlArray` call before
`stepSimulation`.  The function returns that forces array. -/
def BulletSimulator.execute_step
    (q v tau_des q_des v_des kp_des kd_des : List ℚ) : List ℚ :=
  BulletSimulator.tau_cmd tau_des q_des v_des kp_des kd_des q v

section VecLemmas

lemma zipWith_getD (f : ℚ → ℚ → ℚ) :
    ∀ (a b : List ℚ) (i : Nat), i < a.length → i < b.length →
      (List.zipWith f a b).getD i 0 = f (a.getD i 0) (b.getD i 0) := by
  intro a
  induction a with
  | nil => intro b i ha _; simp at ha
  | cons x xs ih =>
    intro b i ha hb
    cases b with
    | nil => simp at hb
    | cons y ys =>
      cases i with
      | zero => rfl
      | succ j =>
        simp only [List.zipWith_cons_cons, List.getD_cons_succ]
        exact ih ys j (by simpa using ha) (by simpa using hb)

lemma vecSub_getD (a b : List ℚ) (i : Nat) (ha : i < a.length) (hb : i < b.length) :
    (vecSub a b).getD i 0 = a.getD i 0 - b.getD i 0 :=
  zipWith_getD _ a b i ha hb

lemma vecMul_getD (a b : List ℚ) (i : Nat) (ha : i < a.length) (hb : i < b.length) :
    (vecMul a b).getD i 0 = a.getD i 0 * b.getD i 0 :=
  zipWith_getD _ a b i ha hb

lemma vecSub_length (a b : List ℚ) : (vecSub a b).length = min a.length b.length :=
  List.length_zipWith _ a b

lemma vecMul_length (a b : List ℚ) : (vecMul a b).length = min a.length b.length :=
  List.length_zipWith _ a b

lemma getD_drop (l : List ℚ) : ∀ (k i : Nat), (l.drop k).getD i 0 = l.getD (k + i) 0 := by
  induction l with
  | nil => intro k i; simp
  | cons x xs ih =>
    intro k i
    cases k with
    | zero => simp
    | succ m =>
      have h : m + 1 + i = (m + i) + 1 := by omega
      rw [List.drop_succ_cons, ih m i, h, List.getD_cons_succ]

lemma getD_append_right (l1 l2 : List ℚ) (i : Nat) :
    (l1 ++ l2).getD (l1.length + i) 0 = l2.getD i 0 := by
  induction l1 with
  | nil => simp
  | cons x xs ih =>
    have h : (x :: xs).length + i = (xs.length + i) + 1 := by
      simp [List.length_cons]; omega
    rw [List.cons_append, h, List.getD_cons_succ, ih]

end VecLemmas

/-- Length of the `tau_cmd` vector of either backend, for 12-joint inputs. -/
lemma BulletSimulator.tau_cmd_length
    (tau_des q_des v_des kp_des kd_des q v : List ℚ)
    (ht : tau_des.length = 12) (hq : q_des.length = 12) (hv : v_des.length = 12)
    (hkp : kp_des.length = 12) (hkd : kd_des.length = 12)
    (hqj : q.length = 12) (hvj : v.length = 12) :
    (BulletSimulator.tau_cmd tau_des q_des v_des kp_des kd_des q v).length = 12 := by
  simp [BulletSimulator.tau_cmd, vecSub_length, vecMul_length, ht, hq, hv, hkp, hkd, hqj, hvj]

/-- **C1.** For every call to a backend's `execute_step` with 12-joint command
arrays and pre-step joint state `(q, v)` read from the backend immediately
before the step, the applied torque satisfies
`tau_cmd[i] = tau_ff[i] - kp[i]*(q[i]-q_des[i]) - kd[i]*(v[i]-v_des[i])` for
every joint index `i < 12`, in both backend variants.  For the Simple
(Pinocchio) backend the joint state is `q_current[7:]`, `v_current[6:]` of
the full pre-step state and the applied generalized torque sits in entries
`6+i`; for the Bullet backend the forces array is indexed directly by `i`. -/
theorem execute_step_pd_law
    (tau_des q_des v_des kp_des kd_des q_current v_current qj vj : List ℚ)
    (ht : tau_des.length = 12) (hqd : q_des.length = 12) (hvd : v_des.length = 12)
    (hkp : kp_des.length = 12) (hkd : kd_des.length = 12)
    (hqc : q_current.length = 19) (hvc : v_current.length = 18)
    (hqj : qj.length = 12) (hvj : vj.length = 12)
    (i : Nat) (hi : i < 12) :
    (SimpleSimulator.execute_step 18 q_current v_current
        tau_des q_des v_des kp_des kd_des).getD (6 + i) 0
      = tau_des.getD i 0
        - kp_des.getD i 0 * (q_current.getD (7 + i) 0 - q_des.getD i 0)
        - kd_des.getD i 0 * (v_current.getD (6 + i) 0 - v_des.getD i 0)
    ∧ (BulletSimulator.execute_step qj vj
        tau_des q_des v_des kp_des kd_des).getD i 0
      = tau_des.getD i 0
        - kp_des.getD i 0 * (qj.getD i 0 - q_des.getD i 0)
        - kd_des.getD i 0 * (vj.getD i 0 - v_des.getD i 0) := by
  have hdropq : (q_current.drop 7).length = 12 := by simp [hqc]
  have hdropv : (v_current.drop 6).length = 12 := by simp [hvc]
  constructor
  · have htake : ((List.replicate 18 (0 : ℚ)).take 6).length = 6 := by simp
    have : (SimpleSimulator.execute_step 18 q_current v_current
        tau_des q_des v_des kp_des kd_des).getD (6 + i) 0
        = (SimpleSimulator.tau_cmd tau_des q_des v_des kp_des kd_des
            q_current v_current).getD i 0 := by
      unfold SimpleSimulator.execute_step sliceAssignFrom
      rw [show (6 : Nat) + i = ((List.replicate 18 (0 : ℚ)).take 6).length + i by rw [htake]]
      exact getD_append_right _ _ i
    rw [this]
    unfold SimpleSimulator.tau_cmd
    rw [vecSub_getD, vecSub_getD, vecMul_getD, vecMul_getD, vecSub_getD, vecSub_getD,
        getD_drop, getD_drop]
    · ring
    all_goals simp [vecSub_length, vecMul_length, ht, hqd, hvd, hkp, hkd, hdropq, hdropv]
    all_goals omega
  · unfold BulletSimulator.execute_step BulletSimulator.tau_cmd
    rw [vecSub_getD, vecSub_getD, vecMul_getD, vecMul_getD, vecSub_getD, vecSub_getD]
    · ring
    all_goals simp [vecSub_length, vecMul_length, ht, hqd, hvd, hkp, hkd, hqj, hvj]
    all_goals omega

/-- Witness for `execute_step_pd_law` at a concrete input. -/
theorem execute_step_pd_law_witness :
    (SimpleSimulator.execute_step 18
        (List.replicate 7 (0 : ℚ) ++ List.replicate 12 (1 : ℚ))
        (List.replicate 6 (0 : ℚ) ++ List.replicate 12 (2 : ℚ))
        (List.replicate 12 (5 : ℚ)) (List.replicate 12 (0 : ℚ))
        (List.replicate 12 (0 : ℚ)) (List.replicate 12 (3 : ℚ))
        (List.replicate 12 (1 : ℚ))).getD (6 + 0) 0
      = (List.replicate 12 (5 : ℚ)).getD 0 0
        - (List.replicate 12 (3 : ℚ)).getD 0 0
          * ((List.replicate 7 (0 : ℚ) ++ List.replicate 12 (1 : ℚ)).getD (7 + 0) 0
             - (List.replicate 12 (0 : ℚ)).getD 0 0)
        - (List.replicate 12 (1 : ℚ)).getD 0 0
          * ((List.replicate 6 (0 : ℚ) ++ List.replicate 12 (2 : ℚ)).getD (6 + 0) 0
             - (List.replicate 12 (0 : ℚ)).getD 0 0) :=
  (execute_step_pd_law (List.replicate 12 (5 : ℚ)) (List.replicate 12 (0 : ℚ))
    (List.replicate 12 (0 : ℚ)) (List.replicate 12 (3 : ℚ)) (List.replicate 12 (1 : ℚ))
    (List.replicate 7 (0 : ℚ) ++ List.replicate 12 (1 : ℚ))
    (List.replicate 6 (0 : ℚ) ++ List.replicate 12 (2 : ℚ))
    (List.replicate 12 (1 : ℚ)) (List.replicate 12 (2 : ℚ))
    (by decide) (by decide) (by decide) (by decide) (by decide)
    (by decide) (by decide) (by decide) (by decide) 0 (by decide)).1

/-- **C2.** The PD torque expression is duplicated verbatim between the two
backends: given identical command arrays and identical pre-step joint state
(for the Simple backend the joint state is the `[7:]` / `[6:]` tail of the
full state), the two `tau_cmd` vectors coincide exactly, elementwise as
written, with no reassociation of the arithmetic. -/
theorem tau_cmd_backend_agreement
    (tau_des q_des v_des kp_des kd_des q_current v_current qj vj : List ℚ)
    (hq : q_current.drop 7 = qj) (hv : v_current.drop 6 = vj) :
    SimpleSimulator.tau_cmd tau_des q_des v_des kp_des kd_des q_current v_current
      = BulletSimulator.tau_cmd tau_des q_des v_des kp_des kd_des qj vj := by
  unfold SimpleSimulator.tau_cmd BulletSimulator.tau_cmd
  rw [hq, hv]

/-- Witness for `tau_cmd_backend_agreement` at a concrete input. -/
theorem tau_cmd_backend_agreement_witness :
    SimpleSimulator.tau_cmd [1] [2] [3] [4] [5]
        [0, 0, 0, 0, 0, 0, 0, 6] [0, 0, 0, 0, 0, 0, 7]
      = BulletSimulator.tau_cmd [1] [2] [3] [4] [5] [6] [7] :=
  tau_cmd_backend_agreement [1] [2] [3] [4] [5] [0, 0, 0, 0, 0, 0, 0, 6]
    [0, 0, 0, 0, 0, 0, 7] [6] [7] (by decide) (by decide)

/-- **C10.** The generalized torque vector handed to the underlying simulator
by `SimpleSimulator.execute_step` has its first 6 entries (the floating-base
degrees of freedom) equal to zero and its remaining 12 entries equal to
`tau_cmd`: the floating base is never directly actuated.  Stated for the go2
dimensions `nv = 18` with 12-joint command arrays. -/
theorem execute_step_base_unactuated
    (q_current v_current tau_des q_des v_des kp_des kd_des : List ℚ)
    (ht : tau_des.length = 12) (hqd : q_des.length = 12) (hvd : v_des.length = 12)
    (hkp : kp_des.length = 12) (hkd : kd_des.length = 12)
    (hqc : q_current.length = 19) (hvc : v_current.length = 18) :
    (SimpleSimulator.execute_step 18 q_current v_current
        tau_des q_des v_des kp_des kd_des).take 6 = List.replicate 6 (0 : ℚ)
    ∧ (SimpleSimulator.execute_step 18 q_current v_current
        tau_des q_des v_des kp_des kd_des).drop 6
      = SimpleSimulator.tau_cmd tau_des q_des v_des kp_des kd_des q_current v_current
    ∧ (SimpleSimulator.execute_step 18 q_current v_current
        tau_des q_des v_des kp_des kd_des).length = 18 := by
  have hlen : (SimpleSimulator.tau_cmd tau_des q_des v_des kp_des kd_des
      q_current v_current).length = 12 := by
    have hdq : (q_current.drop 7).length = 12 := by simp [hqc]
    have hdv : (v_current.drop 6).length = 12 := by simp [hvc]
    simp [SimpleSimulator.tau_cmd, vecSub_length, vecMul_length, ht, hqd, hvd, hkp, hkd,
      hdq, hdv]
  have hrep : (List.replicate 18 (0 : ℚ)).take 6 = List.replicate 6 (0 : ℚ) := by decide
  refine ⟨?_, ?_, ?_⟩
  · unfold SimpleSimulator.execute_step sliceAssignFrom
    rw [hrep]
    rw [List.take_append_of_le_length (by simp)]
    decide
  · unfold SimpleSimulator.execute_step sliceAssignFrom
    rw [hrep]
    rw [List.drop_append_of_le_length (by simp)]
    simp
  · unfold SimpleSimulator.execute_step sliceAssignFrom
    rw [hrep]
    simp [hlen]

/-- Witness for `execute_step_base_unactuated` at a concrete input. -/
theorem execute_step_base_unactuated_witness :
    (SimpleSimulator.execute_step 18
        (List.replicate 19 (1 : ℚ)) (List.replicate 18 (2 : ℚ))
        (List.replicate 12 (3 : ℚ)) (List.replicate 12 (0 : ℚ))
        (List.replicate 12 (0 : ℚ)) (List.replicate 12 (1 : ℚ))
        (List.replicate 12 (1 : ℚ))).take 6 = List.replicate 6 (0 : ℚ) :=
  (execute_step_base_unactuated _ _ _ _ _ _ _
    (by decide) (by decide) (by decide) (by decide) (by decide)
    (by decide) (by decide)).1

/-!
Embedding of the ROS node `Go2Simulator` (go2_sim.py).  The node's observable
behaviour is modelled as the list of backend/bus actions a handler performs,
together with the node's attribute state before and after.  Python attribute
semantics: `self.last_msg_time` is modelled as an `Option`, `none` meaning the
attribute was never assigned (reading it raises `AttributeError`); no line of
go2_sim.py ever assigns it.
-/

/-- One per-joint entry of an incoming LowCmd message.  The message carries
target position `q`, target velocity `dq`, feed-forward torque `tau` and
gains `kp`, `kd`; `apply_cmd` (go2_sim.py lines 80-92) reads only `q` and
`dq`. -/
structure MotorCmd where
  q : ℚ
  dq : ℚ
  tau : ℚ
  kp : ℚ
  kd : ℚ
deriving DecidableEq

/-- One per-joint entry of the outgoing LowState message (go2_sim.py lines
70-72). -/
structure MotorState where
  mode : Nat
  q : ℚ
  dq : ℚ
deriving DecidableEq

/-- The outgoing LowState message: 12 motor states plus the base orientation
quaternion copied into `imu_state.quaternion` (go2_sim.py lines 67-75). -/
structure LowStateMsg where
  motor_state : List MotorState
  quaternion : List ℚ
deriving DecidableEq

/-- Python runtime errors that the handlers of go2_sim.py can raise. -/
inductive PyErr where
  | indexError
  | typeError
  | attributeError
deriving DecidableEq

deriving instance DecidableEq for Except

/-- Externally visible actions a handler performs, in order: pybullet motor
control and stepping, message publication, and `time.sleep`. -/
inductive SimAction where
  | setMotorControlPosition (jointIndex : Nat) (targetPosition targetVelocity : ℚ)
  | stepSimulation
  | publish (msg : LowStateMsg)
  | sleep (seconds : ℚ)
deriving DecidableEq

/-- The pybullet world as seen by the node: the joint state
`(position, velocity)` for each pybullet joint index, and the base
orientation quaternion.  Reads are live. -/
structure World where
  jointState : Nat → ℚ × ℚ
  baseOrientation : List ℚ

/-- The node's Python attributes relevant to the handlers: `self.j_idx`
(built by `init_pybullet`; entries are `None` when `get_joint_id` failed),
`self.last_msg` (assigned `None` in `__init__`, line 30, and never written
again), and `self.last_msg_time` (**never assigned anywhere**; `none`
models the unset attribute). -/
structure NodeState where
  j_idx : List (Option Nat)
  last_msg : Option (List MotorCmd)
  last_msg_time : Option ℚ
deriving DecidableEq

/-- Node attribute state right after `Go2Simulator.__init__`. -/
def Go2Simulator.initState (j_idx : List (Option Nat)) : NodeState :=
  { j_idx := j_idx, last_msg := none, last_msg_time := none }

/-- The loop of `update_state` (go2_sim.py lines 68-72): for
`joint_idx in range(12)`, read `p.getJointState(robot, j_idx[joint_idx])`
and fill `motor_state[joint_idx]` with mode 1 and the live `(q, dq)`.
`k` is the current index, the second argument counts remaining iterations.
A missing `j_idx` entry is an IndexError; a `None` entry makes pybullet
raise (modelled as TypeError). -/
def buildMotorStates (jidx : List (Option Nat)) (w : World) :
    Nat → Nat → Except PyErr (List MotorState)
  | _, 0 => .ok []
  | k, n + 1 =>
    match jidx[k]? with
    | none => .error .indexError
    | some none => .error .typeError
    | some (some j) =>
      match buildMotorStates jidx w (k + 1) n with
      | .error e => .error e
      | .ok rest =>
        .ok ({ mode := 1, q := (w.jointState j).1, dq := (w.jointState j).2 } :: rest)

/-- `Go2Simulator.update_state` (go2_sim.py lines 66-76), the timer callback:
build a LowState from the 12 live joint states and the live base
orientation, then publish it.  It performs no other backend call. -/
def Go2Simulator.update_state (st : NodeState) (w : World) :
    Except PyErr (List SimAction) :=
  match buildMotorStates st.j_idx w 0 12 with
  | .error e => .error e
  | .ok ms =>
    .ok [SimAction.publish { motor_state := ms, quaternion := w.baseOrientation }]

/-- The loop of `apply_cmd` (go2_sim.py lines 80-92): for
`joint_idx in range(12)`, read `msg.motor_cmd[joint_idx]` (IndexError when
the message is shorter), read `self.j_idx[joint_idx]`, and issue a
POSITION_CONTROL `setJointMotorControl2` with the command's `q` and `dq`.
Returns the actions issued before any error, and the loop outcome. -/
def cmdControlLoop (jidx : List (Option Nat)) (mc : List MotorCmd) :
    Nat → Nat → List SimAction × Except PyErr Unit
  | _, 0 => ([], .ok ())
  | k, n + 1 =>
    match mc[k]? with
    | none => ([], .error .indexError)
    | some cmd =>
      match jidx[k]? with
      | none => ([], .error .indexError)
      | some none => ([], .error .typeError)
      | some (some j) =>
        let rest := cmdControlLoop jidx mc (k + 1) n
        (SimAction.setMotorControlPosition j cmd.q cmd.dq :: rest.1, rest.2)

/-- `Go2Simulator.apply_cmd` (go2_sim.py lines 78-96), the command callback:
record `now`, run the 12-joint POSITION_CONTROL loop, call
`p.stepSimulation()`, then compute
`time_diff = (current_msg_time - self.last_msg_time)` and
`time.sleep(time_diff)`.  Since `self.last_msg_time` is never assigned
anywhere in the class, the read raises AttributeError whenever the
attribute is unset.  No attribute of the node is written, so the node state
is returned unchanged on every path. -/
def Go2Simulator.apply_cmd (st : NodeState) (mc : List MotorCmd) (now : ℚ) :
    List SimAction × NodeState × Except PyErr Unit :=
  let loop := cmdControlLoop st.j_idx mc 0 12
  match loop.2 with
  | .error e => (loop.1, st, .error e)
  | .ok _ =>
    match st.last_msg_time with
    | none => (loop.1 ++ [SimAction.stepSimulation], st, .error .attributeError)
    | some t =>
      (loop.1 ++ [SimAction.stepSimulation, SimAction.sleep (now - t)], st, .ok ())

/-- **C3 counterexample.**  At a concrete resolved joint map and a concrete
world, the timer callback `update_state` emits exactly one action — the
state publication — and in particular no physics step: physics does not
advance on a tick, refuting the claim that every tick calls the backend's
`execute_step` before publishing. -/
theorem update_state_never_steps_physics :
    Go2Simulator.update_state
        (Go2Simulator.initState ((List.range 12).map some))
        { jointState := fun _ => (0, 0), baseOrientation := [0, 0, 0, 1] }
      = .ok [SimAction.publish
          { motor_state := List.replicate 12 { mode := 1, q := 0, dq := 0 },
            quaternion := [0, 0, 0, 1] }]
    ∧ ([SimAction.publish
          { motor_state := List.replicate 12 { mode := 1, q := 0, dq := 0 },
            quaternion := [0, 0, 0, 1] }]).contains SimAction.stepSimulation = false := by
  decide

/-- **C3 (amended).**  A timer tick reads the 12 live joint states and the
base orientation and publishes them; it performs no physics step and does
not read the last received command (the trace is a single publish action,
independent of `last_msg` and `last_msg_time`).  Physics advances only in
`apply_cmd`. -/
theorem update_state_publishes_live_state
    (a0 a1 a2 a3 a4 a5 a6 a7 a8 a9 a10 a11 : Nat)
    (lm : Option (List MotorCmd)) (lt : Option ℚ) (w : World) :
    Go2Simulator.update_state
        { j_idx := [some a0, some a1, some a2, some a3, some a4, some a5,
                    some a6, some a7, some a8, some a9, some a10, some a11],
          last_msg := lm, last_msg_time := lt } w
      = .ok [SimAction.publish
          { motor_state :=
              [{ mode := 1, q := (w.jointState a0).1, dq := (w.jointState a0).2 },
               { mode := 1, q := (w.jointState a1).1, dq := (w.jointState a1).2 },
               { mode := 1, q := (w.jointState a2).1, dq := (w.jointState a2).2 },
               { mode := 1, q := (w.jointState a3).1, dq := (w.jointState a3).2 },
               { mode := 1, q := (w.jointState a4).1, dq := (w.jointState a4).2 },
               { mode := 1, q := (w.jointState a5).1, dq := (w.jointState a5).2 },
               { mode := 1, q := (w.jointState a6).1, dq := (w.jointState a6).2 },
               { mode := 1, q := (w.jointState a7).1, dq := (w.jointState a7).2 },
               { mode := 1, q := (w.jointState a8).1, dq := (w.jointState a8).2 },
               { mode := 1, q := (w.jointState a9).1, dq := (w.jointState a9).2 },
               { mode := 1, q := (w.jointState a10).1, dq := (w.jointState a10).2 },
               { mode := 1, q := (w.jointState a11).1, dq := (w.jointState a11).2 }],
            quaternion := w.baseOrientation }] := rfl

/-- **C5 (code bug).**  The very first received command faults: with the
attribute state left by `__init__` (`last_msg_time` never assigned), a
well-formed 12-joint command is applied joint by joint, physics is stepped,
and then the read of `self.last_msg_time` raises AttributeError — there is
no zero-duration suspend.  The node state is unchanged. -/
theorem apply_cmd_first_command_faults :
    Go2Simulator.apply_cmd
        (Go2Simulator.initState ((List.range 12).map some))
        (List.replicate 12 { q := 0, dq := 0, tau := 0, kp := 0, kd := 0 }) 5
      = ((List.range 12).map (fun j => SimAction.setMotorControlPosition j 0 0)
           ++ [SimAction.stepSimulation],
         Go2Simulator.initState ((List.range 12).map some),
         .error .attributeError) := by
  decide

/-- **C6 (code bug).**  The pacing state is never maintained: (i) even on the
hypothetical path where `last_msg_time` holds a value (5), a successful
`apply_cmd` at time 7 sleeps for the delta 2 but leaves the stored timestamp
at 5 — it is never updated to the current command's timestamp; (ii) in every
state actually reachable (the attribute is never assigned, so it is unset),
`apply_cmd` raises AttributeError instead of suspending. -/
theorem apply_cmd_pacing_state_never_updated :
    (Go2Simulator.apply_cmd
        { j_idx := (List.range 12).map some, last_msg := none, last_msg_time := some 5 }
        (List.replicate 12 { q := 0, dq := 0, tau := 0, kp := 0, kd := 0 }) 7).2.1.last_msg_time
      = some 5
    ∧ (Go2Simulator.apply_cmd
        { j_idx := (List.range 12).map some, last_msg := none, last_msg_time := some 5 }
        (List.replicate 12 { q := 0, dq := 0, tau := 0, kp := 0, kd := 0 }) 7).1
      = (List.range 12).map (fun j => SimAction.setMotorControlPosition j 0 0)
          ++ [SimAction.stepSimulation, SimAction.sleep (7 - 5)]
    ∧ (Go2Simulator.apply_cmd
        { j_idx := (List.range 12).map some, last_msg := none, last_msg_time := none }
        (List.replicate 12 { q := 0, dq := 0, tau := 0, kp := 0, kd := 0 }) 7).2.2
      = .error .attributeError :=
  ⟨rfl, rfl, rfl⟩

/-- **C7 counterexample.**  An 11-joint command is not rejected atomically:
`apply_cmd` issues POSITION_CONTROL actions for all 11 joints present and
only then raises IndexError at the missing twelfth entry — joints of the
malformed command are applied, and the error is a plain IndexError, not a
command-validation failure. -/
theorem apply_cmd_short_command_partially_applied :
    (Go2Simulator.apply_cmd
        (Go2Simulator.initState ((List.range 12).map some))
        (List.replicate 11 { q := 1, dq := 2, tau := 3, kp := 4, kd := 5 }) 0).2.2
      = .error .indexError
    ∧ (Go2Simulator.apply_cmd
        (Go2Simulator.initState ((List.range 12).map some))
        (List.replicate 11 { q := 1, dq := 2, tau := 3, kp := 4, kd := 5 }) 0).1.length
      = 11
    ∧ (Go2Simulator.apply_cmd
        (Go2Simulator.initState ((List.range 12).map some))
        (List.replicate 11 { q := 1, dq := 2, tau := 3, kp := 4, kd := 5 }) 0).1.contains
        (SimAction.setMotorControlPosition 0 1 2) = true := by
  decide

/-- **C7 (amended).**  For every 11-entry command, `apply_cmd` issues the 11
position-control actions for the joints present, then raises IndexError at
the twelfth index, before any physics step; no node attribute is written
(in particular `last_msg` is retained only because it is never written at
all). -/
theorem apply_cmd_short_command_spec
    (c0 c1 c2 c3 c4 c5 c6 c7 c8 c9 c10 : MotorCmd)
    (a0 a1 a2 a3 a4 a5 a6 a7 a8 a9 a10 a11 : Nat)
    (lm : Option (List MotorCmd)) (lt : Option ℚ) (now : ℚ) :
    Go2Simulator.apply_cmd
        { j_idx := [some a0, some a1, some a2, some a3, some a4, some a5,
                    some a6, some a7, some a8, some a9, some a10, some a11],
          last_msg := lm, last_msg_time := lt }
        [c0, c1, c2, c3, c4, c5, c6, c7, c8, c9, c10] now
      = ([SimAction.setMotorControlPosition a0 c0.q c0.dq,
          SimAction.setMotorControlPosition a1 c1.q c1.dq,
          SimAction.setMotorControlPosition a2 c2.q c2.dq,
          SimAction.setMotorControlPosition a3 c3.q c3.dq,
          SimAction.setMotorControlPosition a4 c4.q c4.dq,
          SimAction.setMotorControlPosition a5 c5.q c5.dq,
          SimAction.setMotorControlPosition a6 c6.q c6.dq,
          SimAction.setMotorControlPosition a7 c7.q c7.dq,
          SimAction.setMotorControlPosition a8 c8.q c8.dq,
          SimAction.setMotorControlPosition a9 c9.q c9.dq,
          SimAction.setMotorControlPosition a10 c10.q c10.dq],
         { j_idx := [some a0, some a1, some a2, some a3, some a4, some a5,
                     some a6, some a7, some a8, some a9, some a10, some a11],
           last_msg := lm, last_msg_time := lt },
         .error .indexError) := rfl

/-- **C8 counterexample.**  Two 12-joint commands that differ in their
feed-forward torque and gain fields (`tau`, `kp`, `kd`) produce exactly the
same behaviour of `apply_cmd`: the gains and feed-forward torque of the
message are ignored, so the physics step is not driven by the PD+feed-forward
law of the backend's `execute_step`. -/
theorem apply_cmd_ignores_gain_fields :
    Go2Simulator.apply_cmd
        (Go2Simulator.initState ((List.range 12).map some))
        (List.replicate 12 { q := 1, dq := 0, tau := 0, kp := 10, kd := 1 }) 0
      = Go2Simulator.apply_cmd
        (Go2Simulator.initState ((List.range 12).map some))
        (List.replicate 12 { q := 1, dq := 0, tau := 7, kp := 20, kd := 2 }) 0
    ∧ ((List.replicate 12 ({ q := 1, dq := 0, tau := 0, kp := 10, kd := 1 } : MotorCmd)
          == List.replicate 12 ({ q := 1, dq := 0, tau := 7, kp := 20, kd := 2 } : MotorCmd)) : Bool)
      = false := by
  decide

/-- **C8 (amended).**  In the command-driven node every physics step is
issued directly by `apply_cmd`: the 12 position-control actions are built
solely from the `q` and `dq` fields of the single current message (the
`tau`, `kp`, `kd` fields appear nowhere in the trace), followed by exactly
one `stepSimulation`; the backend's `execute_step` PD law is not invoked.
When `last_msg_time` holds a value `t` the call then sleeps `now - t`;
in the reachable states the attribute is unset and the call raises
AttributeError after the step. -/
theorem apply_cmd_position_control_trace
    (c0 c1 c2 c3 c4 c5 c6 c7 c8 c9 c10 c11 : MotorCmd)
    (a0 a1 a2 a3 a4 a5 a6 a7 a8 a9 a10 a11 : Nat)
    (lm : Option (List MotorCmd)) (t now : ℚ) :
    Go2Simulator.apply_cmd
        { j_idx := [some a0, some a1, some a2, some a3, some a4, some a5,
                    some a6, some a7, some a8, some a9, some a10, some a11],
          last_msg := lm, last_msg_time := some t }
        [c0, c1, c2, c3, c4, c5, c6, c7, c8, c9, c10, c11] now
      = ([SimAction.setMotorControlPosition a0 c0.q c0.dq,
          SimAction.setMotorControlPosition a1 c1.q c1.dq,
          SimAction.setMotorControlPosition a2 c2.q c2.dq,
          SimAction.setMotorControlPosition a3 c3.q c3.dq,
          SimAction.setMotorControlPosition a4 c4.q c4.dq,
          SimAction.setMotorControlPosition a5 c5.q c5.dq,
          SimAction.setMotorControlPosition a6 c6.q c6.dq,
          SimAction.setMotorControlPosition a7 c7.q c7.dq,
          SimAction.setMotorControlPosition a8 c8.q c8.dq,
          SimAction.setMotorControlPosition a9 c9.q c9.dq,
          SimAction.setMotorControlPosition a10 c10.q c10.dq,
          SimAction.setMotorControlPosition a11 c11.q c11.dq,
          SimAction.stepSimulation, SimAction.sleep (now - t)],
         { j_idx := [some a0, some a1, some a2, some a3, some a4, some a5,
                     some a6, some a7, some a8, some a9, some a10, some a11],
           last_msg := lm, last_msg_time := some t },
         .ok ()) := rfl

/-!
Joint-name resolution (go2_sim.py lines 98-104 and simulators.py lines
137-143: the two `get_joint_id` methods are textually identical).
-/

/-- The canonical 12-joint order (go2_sim.py line 56, simulators.py line
112). -/
def joint_order : List String :=
  ["FR_hip_joint", "FR_thigh_joint", "FR_calf_joint",
   "FL_hip_joint", "FL_thigh_joint", "FL_calf_joint",
   "RR_hip_joint", "RR_thigh_joint", "RR_calf_joint",
   "RL_hip_joint", "RL_thigh_joint", "RL_calf_joint"]

/-- `get_joint_id`: scan the backend's joints `0 .. num_joints-1` in order,
return the first index whose reported name equals `joint_name`, and `None`
when no joint matches (the code returns `None` with the comment
"Joint name not found"; it raises nothing).  `names` is the backend's
joint-name table, `names[i] = getJointInfo(robot, i)[1]`. -/
def get_joint_id : List String → String → Option Nat
  | [], _ => none
  | n :: rest, joint_name =>
    if n = joint_name then some 0
    else (get_joint_id rest joint_name).map (fun i => i + 1)

/-- The `self.j_idx` table built at startup (go2_sim.py lines 58-60,
simulators.py lines 115-117): one `get_joint_id` lookup per canonical
name, in canonical order.  The build is total: a missing name yields a
`none` entry, not an error. -/
def build_j_idx (names : List String) : List (Option Nat) :=
  joint_order.map (get_joint_id names)

/-- **C4 counterexample.**  On a backend whose joint table lacks
`"RL_calf_joint"`, `get_joint_id` returns `none` and `build_j_idx`
completes, producing a 12-entry table whose last entry is `none`:
construction does not fail with any `JointResolutionError`, and startup is
not aborted (in `Go2Simulator.init_pybullet` every exception is even caught
and logged, lines 62-64). -/
theorem build_j_idx_missing_joint_no_error :
    get_joint_id
        ["FR_hip_joint", "FR_thigh_joint", "FR_calf_joint",
         "FL_hip_joint", "FL_thigh_joint", "FL_calf_joint",
         "RR_hip_joint", "RR_thigh_joint", "RR_calf_joint",
         "RL_hip_joint", "RL_thigh_joint"] "RL_calf_joint" = none
    ∧ build_j_idx
        ["FR_hip_joint", "FR_thigh_joint", "FR_calf_joint",
         "FL_hip_joint", "FL_thigh_joint", "FL_calf_joint",
         "RR_hip_joint", "RR_thigh_joint", "RR_calf_joint",
         "RL_hip_joint", "RL_thigh_joint"]
      = [some 0, some 1, some 2, some 3, some 4, some 5,
         some 6, some 7, some 8, some 9, some 10, none] := by
  decide

/-- **C4 (amended).**  Joint resolution is by exact first-match:
`get_joint_id` returns `none` exactly when the name is absent from the
backend's joint table (no error is raised and no startup abort happens: the
table build is total and yields 12 entries, recording `none` for a missing
joint), and when it returns an index, that index holds the requested
name. -/
theorem get_joint_id_spec (names : List String) (joint_name : String) :
    (get_joint_id names joint_name = none ↔ joint_name ∉ names)
    ∧ (∀ i, get_joint_id names joint_name = some i →
        i < names.length ∧ names.getD i "" = joint_name)
    ∧ (build_j_idx names).length = 12 := by
  refine ⟨?_, ?_, ?_⟩
  · induction names with
    | nil => simp [get_joint_id]
    | cons n rest ih =>
      by_cases h : n = joint_name
      · subst h
        simp [get_joint_id]
      · simp only [get_joint_id, if_neg h, List.mem_cons, Option.map_eq_none']
        constructor
        · intro hn hmem
          rcases hmem with hmem | hmem
          · exact h hmem.symm
          · exact (ih.mp hn) hmem
        · intro hn
          exact ih.mpr (fun hmem => hn (Or.inr hmem))
  · induction names generalizing joint_name with
    | nil => intro i hi; simp [get_joint_id] at hi
    | cons n rest ih =>
      intro i hi
      by_cases h : n = joint_name
      · subst h
        simp [get_joint_id] at hi
        subst hi
        simp
      · simp only [get_joint_id, if_neg h, Option.map_eq_some'] at hi
        rcases hi with ⟨j, hj, hij⟩
        rcases ih joint_name j hj with ⟨hlt, hname⟩
        subst hij
        refine ⟨by simpa using Nat.succ_lt_succ hlt, ?_⟩
        simpa using hname
  · simp [build_j_idx, joint_order]

/-- Witness for `get_joint_id_spec`: applying it to a concrete two-name
table where the lookup succeeds at index 1. -/
theorem get_joint_id_spec_witness :
    1 < (["FL_hip_joint", "FR_hip_joint"] : List String).length
    ∧ (["FL_hip_joint", "FR_hip_joint"] : List String).getD 1 "" = "FR_hip_joint" :=
  (get_joint_id_spec ["FL_hip_joint", "FR_hip_joint"] "FR_hip_joint").2.1 1 (by decide)

/-!
Collision-pair pruning in `SimpleSimulator.init_simple` (simulators.py lines
58-65): an index-driven while loop over the mutating pair vector, removing
every pair neither of whose geometry objects is named 'floor'.
-/

/-- A geometry object of the Pinocchio geometry model; only its name is
consulted by the pruning loop. -/
structure GeometryObject where
  name : String
deriving DecidableEq

/-- A Pinocchio collision pair: the indices of its two geometry objects. -/
structure CollisionPair where
  first : Nat
  second : Nat
deriving DecidableEq

/-- The retention test of simulators.py line 62: a pair concerns the floor
iff the geometry object at `cp.first` or at `cp.second` is named
'floor'. -/
def isFloorPair (geoms : List GeometryObject) (cp : CollisionPair) : Bool :=
  ((geoms.getD cp.first { name := "" }).name == "floor")
    || ((geoms.getD cp.second { name := "" }).name == "floor")

/-- Pinocchio's `GeometryModel.removeCollisionPair`: erase the first pair of
the vector equal to `cp`. -/
def removeCollisionPair : List CollisionPair → CollisionPair → List CollisionPair
  | [], _ => []
  | p :: ps, cp => if p = cp then ps else p :: removeCollisionPair ps cp

/-- The while loop of simulators.py lines 59-65: starting at `i = 0`, look at
pair `i`; if it does not concern the floor remove it (leaving `i`
unchanged), otherwise advance `i`; stop when `i` reaches the end of the
vector.  The first argument is fuel bounding the number of iterations;
every iteration decreases `ps.length - i` by one, so `pruneCollisionPairs`
runs the loop with fuel `ps.length`, which `pruneLoop_eq_filter` proves
sufficient to reach the exit condition. -/
def pruneLoop (geoms : List GeometryObject) :
    Nat → List CollisionPair → Nat → List CollisionPair
  | 0, ps, _ => ps
  | fuel + 1, ps, i =>
    if h : i < ps.length then
      if isFloorPair geoms (ps.get ⟨i, h⟩) then pruneLoop geoms fuel ps (i + 1)
      else pruneLoop geoms fuel (removeCollisionPair ps (ps.get ⟨i, h⟩)) i
    else ps

/-- The complete post-construction pruning step of `init_simple`. -/
def pruneCollisionPairs (geoms : List GeometryObject) (ps : List CollisionPair) :
    List CollisionPair :=
  pruneLoop geoms ps.length ps 0

lemma removeCollisionPair_eq_of_not_mem_take :
    ∀ (ps : List CollisionPair) (i : Nat) (h : i < ps.length),
      ps.get ⟨i, h⟩ ∉ ps.take i →
      removeCollisionPair ps (ps.get ⟨i, h⟩) = ps.take i ++ ps.drop (i + 1) := by
  intro ps
  induction ps with
  | nil => intro i h; simp at h
  | cons p ps ih =>
    intro i h hmem
    cases i with
    | zero => simp [removeCollisionPair]
    | succ j =>
      have hj : j < ps.length := by simpa using h
      have hget : (p :: ps).get ⟨j + 1, h⟩ = ps.get ⟨j, hj⟩ := rfl
      rw [hget] at hmem ⊢
      have hmem' : ps.get ⟨j, hj⟩ ∉ ps.take j := by
        intro hc
        exact hmem (by simp [List.take_succ_cons, List.mem_cons]; right; exact hc)
      have hne : p ≠ ps.get ⟨j, hj⟩ := by
        intro hc
        exact hmem (by simp [List.take_succ_cons, hc])
      simp only [removeCollisionPair, if_neg hne, List.take_succ_cons,
        List.drop_succ_cons, List.cons_append, List.cons.injEq, true_and]
      exact ih j hj hmem'

lemma pruneLoop_eq_filter (geoms : List GeometryObject) :
    ∀ (fuel : Nat) (ps : List CollisionPair) (i : Nat),
      ps.length - i ≤ fuel →
      (∀ cp ∈ ps.take i, isFloorPair geoms cp = true) →
      pruneLoop geoms fuel ps i
        = ps.take i ++ (ps.drop i).filter (isFloorPair geoms) := by
  intro fuel
  induction fuel with
  | zero =>
    intro ps i hfuel _
    have hle : ps.length ≤ i := by omega
    simp [pruneLoop, List.take_of_length_le hle, List.drop_eq_nil_of_le hle,
      Nat.not_lt.mpr hle]
  | succ fuel ih =>
    intro ps i hfuel hinv
    by_cases h : i < ps.length
    · have hdrop : ps.drop i = ps.get ⟨i, h⟩ :: ps.drop (i + 1) := by
        rw [List.get_eq_getElem]
        exact (List.getElem_cons_drop ps i h).symm
      by_cases hf : isFloorPair geoms (ps.get ⟨i, h⟩) = true
      · have htake : ps.take (i + 1) = ps.take i ++ [ps.get ⟨i, h⟩] := by
          rw [List.take_succ, List.getElem?_eq_getElem h]
          simp [List.get_eq_getElem]
        have hinv' : ∀ cp ∈ ps.take (i + 1), isFloorPair geoms cp = true := by
          intro cp hcp
          rw [htake] at hcp
          rcases List.mem_append.mp hcp with hcp | hcp
          · exact hinv cp hcp
          · rcases List.mem_singleton.mp hcp with rfl
            exact hf
        rw [pruneLoop, dif_pos h, if_pos hf, ih ps (i + 1) (by omega) hinv']
        rw [htake, hdrop, List.filter_cons, if_pos hf]
        simp only [List.append_assoc, List.singleton_append]
      · have hnotmem : ps.get ⟨i, h⟩ ∉ ps.take i := by
          intro hc
          exact hf (hinv _ hc)
        have hrem : removeCollisionPair ps (ps.get ⟨i, h⟩)
            = ps.take i ++ ps.drop (i + 1) :=
          removeCollisionPair_eq_of_not_mem_take ps i h hnotmem
        have htakelen : (ps.take i).length = i := by
          simp [List.length_take]
          omega
        have hlen' : (removeCollisionPair ps (ps.get ⟨i, h⟩)).length = ps.length - 1 := by
          rw [hrem]
          simp [List.length_take, List.length_drop]
          omega
        have htake' : (removeCollisionPair ps (ps.get ⟨i, h⟩)).take i = ps.take i := by
          rw [hrem, List.take_append_of_le_length (by omega), List.take_take]
          simp
        have hdrop' : (removeCollisionPair ps (ps.get ⟨i, h⟩)).drop i = ps.drop (i + 1) := by
          rw [hrem, List.drop_append_of_le_length (by omega)]
          simp [List.drop_eq_nil_of_le, htakelen]
        have hinv' : ∀ cp ∈ (removeCollisionPair ps (ps.get ⟨i, h⟩)).take i,
            isFloorPair geoms cp = true := by
          rw [htake']
          exact hinv
        rw [pruneLoop, dif_pos h, if_neg hf,
          ih (removeCollisionPair ps (ps.get ⟨i, h⟩)) i (by omega) hinv',
          htake', hdrop', hdrop, List.filter_cons, if_neg hf]
    · have hle : ps.length ≤ i := Nat.not_lt.mp h
      simp [pruneLoop, h, List.take_of_length_le hle, List.drop_eq_nil_of_le hle]

/-- The pruning loop of `init_simple` is exactly the declarative filter
"retain the pairs that concern the floor". -/
lemma pruneCollisionPairs_eq_filter (geoms : List GeometryObject)
    (ps : List CollisionPair) :
    pruneCollisionPairs geoms ps = ps.filter (isFloorPair geoms) := by
  have h := pruneLoop_eq_filter geoms ps.length ps 0 (by omega) (by simp)
  simpa [pruneCollisionPairs] using h

/-- **C9.** After the post-construction pruning of `SimpleSimulator.init_simple`,
every remaining collision pair has a geometry object named 'floor', every
floor-touching pair of the original pair set is retained, and the loop is
exactly the filter that removes the pairs touching no floor body. -/
theorem init_simple_collision_pairs_floor_only
    (geoms : List GeometryObject) (ps : List CollisionPair) :
    (∀ cp ∈ pruneCollisionPairs geoms ps, isFloorPair geoms cp = true)
    ∧ (∀ cp ∈ ps, isFloorPair geoms cp = true → cp ∈ pruneCollisionPairs geoms ps)
    ∧ pruneCollisionPairs geoms ps = ps.filter (isFloorPair geoms) := by
  have hfil := pruneCollisionPairs_eq_filter geoms ps
  refine ⟨?_, ?_, hfil⟩
  · intro cp hcp
    rw [hfil] at hcp
    exact (List.mem_filter.mp hcp).2
  · intro cp hcp hfloor
    rw [hfil]
    exact List.mem_filter.mpr ⟨hcp, hfloor⟩

/-- Witness for `init_simple_collision_pairs_floor_only`: on a concrete
model with a floor, a torso and a leg, the floor-torso pair is retained. -/
theorem init_simple_collision_pairs_floor_only_witness :
    CollisionPair.mk 0 1
      ∈ pruneCollisionPairs
          [{ name := "floor" }, { name := "torso" }, { name := "leg" }]
          [{ first := 0, second := 1 }, { first := 1, second := 2 },
           { first := 0, second := 2 }] :=
  (init_simple_collision_pairs_floor_only
      [{ name := "floor" }, { name := "torso" }, { name := "leg" }]
      [{ first := 0, second := 1 }, { first := 1, second := 2 },
       { first := 0, second := 2 }]).2.1
    (CollisionPair.mk 0 1) (by decide) (by decide)
